import Mathlib

/-!
Verification of the pyhottop control driver (`src/pyhottop/pyhottop.py`)
against its natural-language specification.

The source is Python 2 style code: `bytes` index as one-character strings and
`hex2int` (`int(binascii.hexlify(value), 16)`) turns one byte (or a
concatenation of bytes) into its numeric value.  We therefore model buffers and
frames as `List Int` of byte values, and `hex2int buffer[i]` is simply the
`i`-th entry.  Python integers are unbounded, so channel values are `Int`.
Fallible operations (IndexError on short buffers, ValueError on out-of-range
bytearray assignment) are modelled with `Option`.
-/

namespace Pyhottop

/-- The control channels of the shared `_config` dictionary
(`Hottop._init_controls`, lines 360-374).  Only the six channels that are
serialized into outbound frames are modelled; `interval` and the read-back
sensor fields do not take part in encoding. -/
structure Config where
  heater : Int
  fan : Int
  main_fan : Int
  solenoid : Int
  drum_motor : Int
  cooling_motor : Int
deriving Repr, DecidableEq

/-- A channel value that can be stored into a Python `bytearray` cell without a
`ValueError`. -/
def byteOK (v : Int) : Prop := 0 ≤ v ∧ v < 256

instance (v : Int) : Decidable (byteOK v) := by
  unfold byteOK; infer_instance

/-- All six serialized channels of a configuration are storable bytes: this is
what the six `config[i] = self._config.get(...)` assignments of
`_generate_config` require to not raise. -/
def Config.bytesOK (c : Config) : Prop :=
  byteOK c.heater ∧ byteOK c.fan ∧ byteOK c.main_fan ∧
    byteOK c.solenoid ∧ byteOK c.drum_motor ∧ byteOK c.cooling_motor

instance (c : Config) : Decidable c.bytesOK := by
  unfold Config.bytesOK; infer_instance

/-- The data model's range invariant on a Configuration: heater 0-100,
fan 0-10, main_fan 0-10, solenoid / drum_motor / cooling_motor in 0/1. -/
def Config.Valid (c : Config) : Prop :=
  0 ≤ c.heater ∧ c.heater ≤ 100 ∧
    0 ≤ c.fan ∧ c.fan ≤ 10 ∧
    0 ≤ c.main_fan ∧ c.main_fan ≤ 10 ∧
    (c.solenoid = 0 ∨ c.solenoid = 1) ∧
    (c.drum_motor = 0 ∨ c.drum_motor = 1) ∧
    (c.cooling_motor = 0 ∨ c.cooling_motor = 1)

instance (c : Config) : Decidable c.Valid := by
  unfold Config.Valid; infer_instance

/-- Source function `ControlProcess._generate_config` (lines 87-112), the byte-list it builds:
a 36-cell zero-filled array, header constants at offsets 0-6, the six channel
values at offsets 10, 11, 12, 16, 17, 18, and at offset 35 the checksum
`sum(config[:35]) & 0xFF`, i.e. the sum of bytes 0..34 reduced mod 256. -/
def generate_config_bytes (c : Config) : List Int :=
  let config : List Int := List.replicate 36 0
  let config := config.set 0 0xA5
  let config := config.set 1 0x96
  let config := config.set 2 0xB0
  let config := config.set 3 0xA0
  let config := config.set 4 0x01
  let config := config.set 5 0x01
  let config := config.set 6 0x24
  let config := config.set 10 c.heater
  let config := config.set 11 c.fan
  let config := config.set 12 c.main_fan
  let config := config.set 16 c.solenoid
  let config := config.set 17 c.drum_motor
  let config := config.set 18 c.cooling_motor
  config.set 35 ((config.take 35).sum % 256)

/-- Source function `ControlProcess._generate_config` with its Python failure mode made
explicit: each `config[i] = v` assignment into the bytearray raises
`ValueError` unless `0 ≤ v < 256`, so the function only returns a frame when
every serialized channel is a storable byte. -/
def generate_config (c : Config) : Option (List Int) :=
  if c.bytesOK then some (generate_config_bytes c) else none

/-- Source function `ControlProcess._validate_checksum` (lines 131-150).  `none` models an
uncaught `IndexError`: after the emptiness test the code reads `buffer[1]` and
`buffer[35]` unconditionally, which raises on any non-empty buffer shorter than
36 bytes.  `buffer[:35]` never raises (slices truncate). -/
def validate_checksum (buffer : List Int) : Option Bool :=
  if buffer.length = 0 then some false
  else do
    let p0 ← buffer[0]?
    let p1 ← buffer[1]?
    let checksum := (buffer.take 35).sum % 256
    let p35 ← buffer[35]?
    if p0 ≠ 165 ∨ p1 ≠ 150 ∨ p35 ≠ checksum then
      return false
    else
      return true

/-- Source function `celsius2fahrenheit` (lines 51-53), over exact rationals. -/
def celsius2fahrenheit (c : ℚ) : ℚ := (c * 1.8) + 32

/-- The decoded settings dictionary built by `_read_settings`
(lines 177-188). -/
structure Settings where
  heater : Int
  fan : Int
  main_fan : Int
  external_temp : ℚ
  bean_temp : ℚ
  solenoid : Int
  drum_motor : Int
  cooling_motor : Int
  chaff_tray : Int
deriving Repr, DecidableEq

/-- The field-extraction part of `ControlProcess._read_settings`
(lines 177-188), in the source's access order.  `buffer[23] + buffer[24]` in
Python 2 concatenates two one-byte strings before `hex2int`, yielding the
big-endian two-byte value `b23 * 256 + b24`.  `none` models the `IndexError`
raised when the buffer is too short for one of the reads. -/
def parse_settings (buffer : List Int) : Option Settings := do
  let heater ← buffer[10]?
  let fan ← buffer[11]?
  let main_fan ← buffer[12]?
  let b23 ← buffer[23]?
  let b24 ← buffer[24]?
  let b25 ← buffer[25]?
  let b26 ← buffer[26]?
  let solenoid ← buffer[16]?
  let drum_motor ← buffer[17]?
  let cooling_motor ← buffer[18]?
  let chaff_tray ← buffer[19]?
  pure { heater := heater, fan := fan, main_fan := main_fan,
         external_temp := celsius2fahrenheit ((b23 * 256 + b24 : Int) : ℚ),
         bean_temp := celsius2fahrenheit ((b25 * 256 + b26 : Int) : ℚ),
         solenoid := solenoid, drum_motor := drum_motor,
         cooling_motor := cooling_motor, chaff_tray := chaff_tray }

/-- The all-zero initial control configuration set by
`Hottop._init_controls`. -/
def cfg0 : Config := ⟨0, 0, 0, 0, 0, 0⟩

/-- The decode error discrimination named by the spec (section 4.1 / 7). -/
inductive FrameError where
  | Empty
  | BadHeader
  | BadChecksum
deriving Repr, DecidableEq

/-- Modelled from the spec's words (sections 4.1 and 7), as the comparison
point for the refinement claim about `_validate_checksum` (which in the source
collapses all three failures into a single boolean `False`): decoding fails
with `Empty` on a zero-length buffer, with `BadHeader` when byte 0 is not 0xA5
or byte 1 is not 0x96, with `BadChecksum` when byte 35 differs from the sum of
bytes 0..34 mod 256, and succeeds otherwise. -/
def decode_spec (buffer : List Int) : Except FrameError Unit :=
  if buffer.length = 0 then Except.error FrameError.Empty
  else if ¬(buffer.getD 0 0 = 0xA5 ∧ buffer.getD 1 0 = 0x96) then
    Except.error FrameError.BadHeader
  else if buffer.getD 35 0 ≠ (buffer.take 35).sum % 256 then
    Except.error FrameError.BadChecksum
  else Except.ok ()

/-- The facade-side mutable state touched by the channel setters: the shared
`_config` dictionary and the contents of the shared queue `_q`
(oldest first). -/
structure FacadeState where
  config : Config
  q : List Config
deriving Repr, DecidableEq

/-- Outcome of a `set_*` call: normal return with the updated state, or an
`InvalidInput` exception (which leaves the prior state untouched). -/
inductive SetResult where
  | ok (st : FacadeState)
  | invalidInput
deriving Repr, DecidableEq

/-- The first conjunct of the setters' guards, `type(v) != int`: for an
integer argument it is always false.  Kept as a named definition so the
setters below mirror the source's condition shape
`type(v) != int and v not in range(...)` literally. -/
def int_type_mismatch (_ : Int) : Prop := False

instance (v : Int) : Decidable (int_type_mismatch v) := by
  unfold int_type_mismatch; infer_instance

/-- Source function `Hottop.set_heater` (lines 469-480):
`if type(heater) != int and heater not in range(0, 101): raise InvalidInput`,
then `self._config['heater'] = heater` and `self._q.put(self._config)`. -/
def set_heater (heater : Int) (st : FacadeState) : SetResult :=
  if int_type_mismatch heater ∧ ¬(0 ≤ heater ∧ heater < 101) then
    SetResult.invalidInput
  else
    let config := { st.config with heater := heater }
    SetResult.ok { config := config, q := st.q ++ [config] }

/-- Source function `Hottop.set_fan` (lines 489-500), same shape with `range(0, 11)`. -/
def set_fan (fan : Int) (st : FacadeState) : SetResult :=
  if int_type_mismatch fan ∧ ¬(0 ≤ fan ∧ fan < 11) then
    SetResult.invalidInput
  else
    let config := { st.config with fan := fan }
    SetResult.ok { config := config, q := st.q ++ [config] }

/-- Source function `Hottop.set_main_fan` (lines 509-520), same shape with `range(0, 11)`. -/
def set_main_fan (main_fan : Int) (st : FacadeState) : SetResult :=
  if int_type_mismatch main_fan ∧ ¬(0 ≤ main_fan ∧ main_fan < 11) then
    SetResult.invalidInput
  else
    let config := { st.config with main_fan := main_fan }
    SetResult.ok { config := config, q := st.q ++ [config] }

/-- One named control channel of the configuration dictionary. -/
inductive Channel where
  | heater
  | fan
  | main_fan
  | solenoid
  | drum_motor
  | cooling_motor
deriving Repr, DecidableEq

/-- A single keyed store `config[channel] = v` into the dictionary. -/
def Config.setChannel (c : Config) : Channel → Int → Config
  | Channel.heater, v => { c with heater := v }
  | Channel.fan, v => { c with fan := v }
  | Channel.main_fan, v => { c with main_fan := v }
  | Channel.solenoid, v => { c with solenoid := v }
  | Channel.drum_motor, v => { c with drum_motor := v }
  | Channel.cooling_motor, v => { c with cooling_motor := v }

/-- A sequence of channel stores applied in submission order. -/
def applyUpdates (c : Config) (us : List (Channel × Int)) : Config :=
  us.foldl (fun acc u => acc.setChannel u.1 u.2) c

/-- The cool-down override of `ControlProcess.run` (lines 232-238): when the
`cooldown` event is set the loop forces `drum_motor = 0`, `heater = 0`,
`solenoid = 1`, `cooling_motor = 1`, `main_fan = 10` onto the working
configuration before writing it out. -/
def cooldown_override (c : Config) : Config :=
  { c with drum_motor := 0, heater := 0, solenoid := 1,
           cooling_motor := 1, main_fan := 10 }

/-- External stimuli of one polling cycle: the configuration mutations the
facade performed since the previous cycle (sequentialized at the cycle
boundary), and whether `drop()` was invoked since the previous cycle. -/
structure CycleIn where
  updates : List (Channel × Int)
  dropNow : Bool
deriving Repr, DecidableEq

/-- The loop-relevant state of a `ControlProcess`: the working configuration
and the sticky `cooldown` event (an `Event` is only ever `set`, never
cleared, during a session). -/
structure LoopState where
  config : Config
  cooldown : Bool
deriving Repr, DecidableEq

/-- One iteration of the `while not self.exit.is_set()` body of
`ControlProcess.run` (lines 228-241), projected onto the outbound frames: the
read and callback of lines 229-230 do not influence the configuration or the
frame written by `_send_config`, so they are elided here.  The cycle applies
the facade's mutations, latches the cooldown event, applies the cool-down
override if the event is set, and encodes the resulting configuration. -/
def loopCycle (st : LoopState) (inp : CycleIn) : LoopState × Option (List Int) :=
  let config := applyUpdates st.config inp.updates
  let cooldown := st.cooldown || inp.dropNow
  let config := if cooldown then cooldown_override config else config
  (⟨config, cooldown⟩, generate_config config)

/-- The polling loop of `ControlProcess.run`, one outbound frame per cycle. -/
def runLoop : LoopState → List CycleIn → List (Option (List Int))
  | _, [] => []
  | st, inp :: rest =>
    (loopCycle st inp).2 :: runLoop (loopCycle st inp).1 rest

/-- Source function `ControlProcess.drop` (lines 243-249): sets the cooldown event. -/
def ControlProcess.drop (st : LoopState) : LoopState :=
  { st with cooldown := true }

/-- State threaded through `_read_settings`: the buffers the transport will
deliver to successive `self._conn.read(36)` calls (a serial read past the end
of the modelled stream yields an empty read, as a timed-out serial read does),
and the shared `self._retry_count` field. -/
structure RState where
  bufs : List (List Int)
  retry_count : Nat
deriving Repr, DecidableEq

/-- What `_read_settings` hands back to its caller on a normal return: the
literal `False` from the retry branch, or a parsed settings dictionary. -/
inductive ReadResult where
  | ret_false
  | settings (s : Settings)
deriving Repr, DecidableEq

/-- Source function `ControlProcess._read_settings` (lines 152-190), with an explicit fuel
bounding the recursion depth: `none` means the call did not return normally
within `fuel` nested calls (unbounded recursion / stack exhaustion) or raised
(an `IndexError` from `_validate_checksum` or from the field extraction).
Mirrors the source exactly: on a failed validation with `retry` truthy and
`self._retry_count < 3` it first recurses (the guarded `retry=False` branch
requires `self._retry_count > 3` and is unreachable under the `< 3` test),
increments `self._retry_count` only after that recursive call has returned,
discards whatever the recursion produced, and returns `False`; otherwise it
extracts the settings from the buffer — whether or not the validation
succeeded — and resets `self._retry_count` to 0. -/
def read_settings : Nat → Bool → RState → Option (ReadResult × RState)
  | 0, _, _ => none
  | fuel + 1, retry, st =>
    let buffer := st.bufs.headD []
    let st1 : RState := ⟨st.bufs.tail, st.retry_count⟩
    match validate_checksum buffer with
    | none => none
    | some check =>
      if ¬check ∧ (retry ∧ st1.retry_count < 3) then
        match (if st1.retry_count > 3
               then read_settings fuel false st1
               else read_settings fuel true st1) with
        | none => none
        | some (_, st2) => some (ReadResult.ret_false, ⟨st2.bufs, st2.retry_count + 1⟩)
      else
        match parse_settings buffer with
        | none => none
        | some s => some (ReadResult.settings s, ⟨st1.bufs, 0⟩)

/-- A well-formed inbound frame: the frame the device would echo for the
all-zero configuration. -/
def goodFrame : List Int := generate_config_bytes cfg0

/-- Source function `ControlProcess._wake_up` (lines 192-204): the loop header is
`for range in (0, 10)`, which iterates over the two-element tuple `(0, 10)` —
binding the name `range` to 0 and then to 10 — so its body runs twice. -/
def wake_up_iterations : List Int := [0, 10]

/-- The frames `_wake_up` writes: one `_send_config()` per iteration (each
followed by a `time.sleep` of the polling interval, which carries no data). -/
def wake_up_sends (c : Config) : List (Option (List Int)) :=
  wake_up_iterations.map (fun _ => generate_config c)

/-- The pre-loop queue drain of `ControlProcess.run` (lines 225-226):
`while not self._q.empty(): self._config = self._q.get()` — each drained push
wholly replaces the working configuration, so the last queued push wins. -/
def drain_queue (init : Config) (queued : List Config) : Config :=
  queued.foldl (fun _ c => c) init

/-- The polling loop of `run` seen at the Config Store level: `arrivals`
lists, per cycle, the pushes enqueued while that cycle runs.  The loop body
(lines 228-241) contains no `self._q.get()`, so arrivals accumulate in the
queue and the working configuration is driven only by what was drained before
the loop started.  (Cool-down and the read/callback are orthogonal to the
store and are modelled in `runLoop`.) -/
def runQ : Config → List (List Config) → List (Option (List Int))
  | _, [] => []
  | c, _ :: rest => generate_config c :: runQ c rest

/-- A full loop session of `ControlProcess.run` at the Config Store level:
pushes pending at loop start (`pre`) are drained once, then the polling loop
runs with further pushes arriving per cycle. -/
def session (init : Config) (pre : List Config) (arrivals : List (List Config)) :
    List (Option (List Int)) :=
  runQ (drain_queue init pre) arrivals

/-- A configuration push carrying `heater = 7`. -/
def cfg7 : Config := { cfg0 with heater := 7 }

/-- The elapsed-time field attached to each reading by `Hottop._callback`
(line 391): `data['time'] = (td.total_seconds() + 60) / 60`, as a function of
the elapsed seconds since roast start. -/
def elapsed_minutes (td_total_seconds : ℚ) : ℚ := (td_total_seconds + 60) / 60

/-! ## Theorems -/

theorem Config.Valid.bytesOK {c : Config} (h : c.Valid) : c.bytesOK := by
  obtain ⟨h1, h2, h3, h4, h5, h6, h7, h8, h9⟩ := h
  refine ⟨⟨h1, by omega⟩, ⟨h3, by omega⟩, ⟨h5, by omega⟩, ?_, ?_, ?_⟩ <;>
    constructor <;> omega

theorem generate_config_eq_some {c : Config} (h : c.bytesOK) :
    generate_config c = some (generate_config_bytes c) := by
  unfold generate_config
  exact if_pos h

theorem generate_config_bytes_cfg0 : generate_config_bytes cfg0 =
    [165, 150, 176, 160, 1, 1, 36, 0, 0, 0, 0, 0, 0, 0, 0, 0, 0, 0, 0, 0,
     0, 0, 0, 0, 0, 0, 0, 0, 0, 0, 0, 0, 0, 0, 0, 177] := by decide

theorem validate_checksum_goodFrame : validate_checksum goodFrame = some true := by
  decide

theorem generate_config_bytes_length (c : Config) :
    (generate_config_bytes c).length = 36 := rfl

theorem generate_config_bytes_heater (c : Config) :
    (generate_config_bytes c).getD 10 0 = c.heater := rfl

theorem generate_config_bytes_checksum (c : Config) :
    (generate_config_bytes c).getD 35 0 =
      ((generate_config_bytes c).take 35).sum % 256 := rfl

/-- On a buffer of at least 36 bytes no index access can fail, and
`_validate_checksum` returns `True` exactly when byte 0 is 0xA5, byte 1 is
0x96 and byte 35 matches the sum of bytes 0..34 mod 256. -/
theorem validate_checksum_of_long (b : List Int) (h : 36 ≤ b.length) :
    validate_checksum b =
      some (decide (b.getD 0 0 = 165 ∧ b.getD 1 0 = 150 ∧
        b.getD 35 0 = (b.take 35).sum % 256)) := by
  have h0 : b[0]? = some (b.getD 0 0) := by
    rw [List.getElem?_eq_getElem (show 0 < b.length by omega),
      List.getD_eq_getElem b 0 (show 0 < b.length by omega)]
  have h1 : b[1]? = some (b.getD 1 0) := by
    rw [List.getElem?_eq_getElem (show 1 < b.length by omega),
      List.getD_eq_getElem b 0 (show 1 < b.length by omega)]
  have h35 : b[35]? = some (b.getD 35 0) := by
    rw [List.getElem?_eq_getElem (show 35 < b.length by omega),
      List.getD_eq_getElem b 0 (show 35 < b.length by omega)]
  unfold validate_checksum
  rw [if_neg (show ¬ b.length = 0 by omega)]
  simp only [bind, h0, h1, h35, Option.some_bind]
  by_cases hP : b.getD 0 0 = 165 ∧ b.getD 1 0 = 150 ∧
      b.getD 35 0 = (b.take 35).sum % 256
  · rw [if_neg (by tauto), decide_eq_true hP]
    rfl
  · rw [if_pos (by tauto), decide_eq_false hP]
    rfl

/-- Claim C4: for every configuration (satisfying the data model's range
invariant, which is what makes the bytearray stores well defined and hence
gives encoding no error path), `_generate_config` returns exactly 36 bytes
whose bytes 0..6 are the constants 0xA5 0x96 0xB0 0xA0 0x01 0x01 0x24, whose
bytes 10/11/12 are heater/fan/main_fan, whose bytes 16/17/18 are
solenoid/drum_motor/cooling_motor, all other bytes among 0..34 being zero, and
whose byte 35 is the sum of bytes 0..34 reduced modulo 256. -/
theorem C4_encode_frame (c : Config) (h : c.Valid) :
    ∃ frame : List Int, generate_config c = some frame ∧
      frame.length = 36 ∧
      frame.take 7 = [0xA5, 0x96, 0xB0, 0xA0, 0x01, 0x01, 0x24] ∧
      frame.getD 10 0 = c.heater ∧
      frame.getD 11 0 = c.fan ∧
      frame.getD 12 0 = c.main_fan ∧
      frame.getD 16 0 = c.solenoid ∧
      frame.getD 17 0 = c.drum_motor ∧
      frame.getD 18 0 = c.cooling_motor ∧
      (∀ i : Nat, i < 35 → i ∉ [0, 1, 2, 3, 4, 5, 6, 10, 11, 12, 16, 17, 18] →
        frame.getD i 0 = 0) ∧
      frame.getD 35 0 = (frame.take 35).sum % 256 := by
  refine ⟨generate_config_bytes c, generate_config_eq_some h.bytesOK,
    rfl, rfl, rfl, rfl, rfl, rfl, rfl, rfl, ?_, rfl⟩
  intro i hi hmem
  interval_cases i <;> first
    | rfl
    | exact absurd (by decide) hmem

/-- Witness for C4 at the concrete configuration
heater=55, fan=3, main_fan=7, solenoid=1, drum_motor=1, cooling_motor=0. -/
theorem C4_encode_frame_witness :
    (Config.mk 55 3 7 1 1 0).Valid ∧
    (∃ frame : List Int, generate_config (Config.mk 55 3 7 1 1 0) = some frame ∧
      frame.length = 36 ∧
      frame.take 7 = [0xA5, 0x96, 0xB0, 0xA0, 0x01, 0x01, 0x24] ∧
      frame.getD 10 0 = (Config.mk 55 3 7 1 1 0).heater ∧
      frame.getD 11 0 = (Config.mk 55 3 7 1 1 0).fan ∧
      frame.getD 12 0 = (Config.mk 55 3 7 1 1 0).main_fan ∧
      frame.getD 16 0 = (Config.mk 55 3 7 1 1 0).solenoid ∧
      frame.getD 17 0 = (Config.mk 55 3 7 1 1 0).drum_motor ∧
      frame.getD 18 0 = (Config.mk 55 3 7 1 1 0).cooling_motor ∧
      (∀ i : Nat, i < 35 → i ∉ [0, 1, 2, 3, 4, 5, 6, 10, 11, 12, 16, 17, 18] →
        frame.getD i 0 = 0) ∧
      frame.getD 35 0 = (frame.take 35).sum % 256) :=
  ⟨by decide, C4_encode_frame (Config.mk 55 3 7 1 1 0) (by decide)⟩

/-- Claim C5: for every configuration within the documented channel ranges,
reading the channel bytes of the encoded frame back at the inbound positions
(the extraction step of `_read_settings`) recovers exactly the heater, fan,
main_fan, solenoid, drum_motor and cooling_motor that were encoded. -/
theorem C5_roundtrip (c : Config) (h : c.Valid) :
    ∃ (frame : List Int) (s : Settings),
      generate_config c = some frame ∧
      parse_settings frame = some s ∧
      s.heater = c.heater ∧ s.fan = c.fan ∧ s.main_fan = c.main_fan ∧
      s.solenoid = c.solenoid ∧ s.drum_motor = c.drum_motor ∧
      s.cooling_motor = c.cooling_motor :=
  ⟨generate_config_bytes c, _, generate_config_eq_some h.bytesOK,
    rfl, rfl, rfl, rfl, rfl, rfl, rfl⟩

/-- Claim C1 is refuted by the code: the setters' guards read
`type(v) != int and v not in range(...)` — with `and` where the documented
behaviour requires `or` — so for an integer argument the first conjunct is
false, the guard never fires, and `InvalidInput` is never raised: every call,
in range or not, stores the value into the shared configuration and pushes it
onto the queue.  In particular `set_heater(101)` succeeds and stores 101,
contradicting the claimed range check (and the setters' own docstrings). -/
theorem C1_setters_never_raise :
    (∀ (v : Int) (st : FacadeState),
      set_heater v st = SetResult.ok
        { config := { st.config with heater := v },
          q := st.q ++ [{ st.config with heater := v }] }) ∧
    (∀ (v : Int) (st : FacadeState),
      set_fan v st = SetResult.ok
        { config := { st.config with fan := v },
          q := st.q ++ [{ st.config with fan := v }] }) ∧
    (∀ (v : Int) (st : FacadeState),
      set_main_fan v st = SetResult.ok
        { config := { st.config with main_fan := v },
          q := st.q ++ [{ st.config with main_fan := v }] }) ∧
    set_heater 101 ⟨cfg0, []⟩ =
      SetResult.ok ⟨{ cfg0 with heater := 101 }, [{ cfg0 with heater := 101 }]⟩ := by
  refine ⟨fun v st => ?_, fun v st => ?_, fun v st => ?_, by decide⟩
  · unfold set_heater
    rw [if_neg (by simp [int_type_mismatch])]
  · unfold set_fan
    rw [if_neg (by simp [int_type_mismatch])]
  · unfold set_main_fan
    rw [if_neg (by simp [int_type_mismatch])]

/-- Claim C2 is refuted by the code: `self._retry_count` is incremented only
after the recursive `_read_settings` call has returned, so while reads keep
failing validation the counter stays at 0 and the recursion never bottoms out
— there is no bound of 3 attempts (first conjunct: for every recursion budget,
a transport whose reads all fail validation exhausts the budget; in Python
this is unbounded recursion until `RecursionError`).  The second conjunct
traces the spec's own scenario — 3 failed reads, then a valid frame: the valid
frame is read and parsed by the innermost call, but every enclosing call
discards it and returns `False`, which `run` then passes to the callback, so
the cycle yields `False` instead of either the valid reading or a skipped
callback. -/
theorem C2_retry_unbounded :
    (∀ fuel : Nat, read_settings fuel true ⟨[], 0⟩ = none) ∧
    read_settings 10 true ⟨[[], [], [], goodFrame], 0⟩ =
      some (ReadResult.ret_false, ⟨[], 3⟩) := by
  constructor
  · intro fuel
    induction fuel with
    | zero => rfl
    | succ n ih =>
      have hstep : read_settings (n + 1) true ⟨[], 0⟩ =
          (match read_settings n true ⟨[], 0⟩ with
            | none => none
            | some (_, st2) =>
                some (ReadResult.ret_false, ⟨st2.bufs, st2.retry_count + 1⟩)) := rfl
      rw [hstep, ih]
  · decide

/-- Claim C6: the source's `_validate_checksum` reports all failures as a bare
`False`, but its accept/reject behaviour coincides exactly with the spec's
three-way error classification: the empty buffer is rejected (spec: `Empty`);
a 36-byte buffer whose byte 0 is not 0xA5 or whose byte 1 is not 0x96 is
rejected regardless of its checksum (spec: `BadHeader`); a 36-byte buffer with
a good header but byte 35 differing from the sum of bytes 0..34 mod 256 is
rejected (spec: `BadChecksum`); and a 36-byte buffer passing all three checks
is accepted. -/
theorem C6_decode_error_classification :
    (validate_checksum ([] : List Int) = some false ∧
      decode_spec [] = Except.error FrameError.Empty) ∧
    (∀ b : List Int, b.length = 36 →
      (validate_checksum b = some true ↔ decode_spec b = Except.ok ())) ∧
    (∀ b : List Int, b.length = 36 →
      ¬(b.getD 0 0 = 0xA5 ∧ b.getD 1 0 = 0x96) →
      validate_checksum b = some false ∧
        decode_spec b = Except.error FrameError.BadHeader) ∧
    (∀ b : List Int, b.length = 36 →
      b.getD 0 0 = 0xA5 → b.getD 1 0 = 0x96 →
      b.getD 35 0 ≠ (b.take 35).sum % 256 →
      validate_checksum b = some false ∧
        decode_spec b = Except.error FrameError.BadChecksum) := by
  refine ⟨⟨rfl, rfl⟩, ?_, ?_, ?_⟩
  · intro b hb
    rw [validate_checksum_of_long b (by omega)]
    unfold decode_spec
    rw [if_neg (by omega)]
    by_cases hH : b.getD 0 0 = 165 ∧ b.getD 1 0 = 150
    · by_cases hC : b.getD 35 0 = (b.take 35).sum % 256
      · rw [if_neg (by tauto), if_neg (by tauto),
          decide_eq_true ⟨hH.1, hH.2, hC⟩]
        simp
      · rw [if_neg (by tauto), if_pos (by tauto), decide_eq_false (by tauto)]
        simp
    · rw [if_pos (by tauto), decide_eq_false (by tauto)]
      simp
  · intro b hb hH
    rw [validate_checksum_of_long b (by omega)]
    unfold decode_spec
    rw [if_neg (by omega), if_pos (by tauto), decide_eq_false (by tauto)]
    exact ⟨rfl, rfl⟩
  · intro b hb h0 h1 hC
    rw [validate_checksum_of_long b (by omega)]
    unfold decode_spec
    rw [if_neg (by omega), if_neg (by tauto), if_pos hC,
      decide_eq_false (by tauto)]
    exact ⟨rfl, rfl⟩

/-- Witness for C6: the encoded all-zero frame is accepted; the all-zero
36-byte buffer is rejected on its header; the encoded frame with its checksum
byte overwritten by 0 is rejected on its checksum. -/
theorem C6_decode_error_classification_witness :
    (goodFrame.length = 36 ∧
      (validate_checksum goodFrame = some true ↔
        decode_spec goodFrame = Except.ok ())) ∧
    (¬((List.replicate 36 (0 : Int)).getD 0 0 = 0xA5 ∧
        (List.replicate 36 (0 : Int)).getD 1 0 = 0x96) ∧
      validate_checksum (List.replicate 36 (0 : Int)) = some false ∧
        decode_spec (List.replicate 36 (0 : Int)) =
          Except.error FrameError.BadHeader) ∧
    ((goodFrame.set 35 0).getD 35 0 ≠ ((goodFrame.set 35 0).take 35).sum % 256 ∧
      validate_checksum (goodFrame.set 35 0) = some false ∧
        decode_spec (goodFrame.set 35 0) = Except.error FrameError.BadChecksum) :=
  ⟨⟨by decide, C6_decode_error_classification.2.1 goodFrame (by decide)⟩,
   ⟨by decide,
     C6_decode_error_classification.2.2.1 (List.replicate 36 0) (by decide)
       (by decide)⟩,
   ⟨by decide,
     C6_decode_error_classification.2.2.2 (goodFrame.set 35 0) (by decide)
       (by decide) (by decide) (by decide)⟩⟩

/-- Claim C7 is refuted by the code: the wake-up phase's loop header is
`for range in (0, 10)` — iteration over the two-element tuple `(0, 10)`, not
over `range(0, 10)` — so the configuration frame is sent exactly 2 times, not
10, before the first read. -/
theorem C7_wake_up_sends_twice (c : Config) :
    (wake_up_sends c).length = 2 ∧ (wake_up_sends c).length ≠ 10 := by
  refine ⟨rfl, ?_⟩
  rw [show (wake_up_sends c).length = 2 from rfl]
  decide

/-- Claim C9 is refuted by the code: `Hottop._callback` computes the elapsed
field as `(td.total_seconds() + 60) / 60`, which is elapsed minutes plus a
spurious fixed offset of one minute; at the roast-start instant (zero elapsed
seconds) it yields 1, not the claimed 0. -/
theorem C9_elapsed_time_offset :
    elapsed_minutes 0 = 1 ∧
    (∀ td : ℚ, elapsed_minutes td = td / 60 + 1) ∧
    (1 : ℚ) ≠ 0 := by
  refine ⟨by norm_num [elapsed_minutes], fun td => ?_, by norm_num⟩
  unfold elapsed_minutes
  ring

/-- Claim C10: `_validate_checksum` returns a verdict only for buffers of
length 0 (a definite rejection) or of length at least 36; on every non-empty
buffer shorter than 36 bytes — which a timed-out serial `read(36)` can
legitimately deliver — the unconditional accesses to bytes 1 and 35 raise an
`IndexError` instead of rejecting the frame. -/
theorem C10_validation_totality :
    validate_checksum ([] : List Int) = some false ∧
    (∀ b : List Int, 0 < b.length → b.length < 36 →
      validate_checksum b = none) ∧
    (∀ b : List Int, 36 ≤ b.length → (validate_checksum b).isSome = true) := by
  refine ⟨rfl, ?_, ?_⟩
  · intro b h1 h2
    have h35 : b[35]? = none := List.getElem?_eq_none (by omega)
    unfold validate_checksum
    rw [if_neg (by omega)]
    rcases hb1 : b[1]? with _ | p1
    · simp [bind, List.getElem?_eq_getElem h1, hb1]
    · simp [bind, List.getElem?_eq_getElem h1, hb1, h35]
  · intro b h
    rw [validate_checksum_of_long b h]
    rfl

/-- Witness for C10: a one-byte buffer raises, the 36-byte encoded frame gets
a verdict. -/
theorem C10_validation_totality_witness :
    (0 < [(5 : Int)].length ∧ [(5 : Int)].length < 36 ∧
      validate_checksum [(5 : Int)] = none) ∧
    (36 ≤ goodFrame.length ∧ (validate_checksum goodFrame).isSome = true) :=
  ⟨⟨by decide, by decide,
     C10_validation_totality.2.1 [(5 : Int)] (by decide) (by decide)⟩,
   ⟨by decide, C10_validation_totality.2.2 goodFrame (by decide)⟩⟩

theorem setChannel_bytesOK {c : Config} (h : c.bytesOK) (ch : Channel)
    {v : Int} (hv : 0 ≤ v ∧ v < 256) : (c.setChannel ch v).bytesOK := by
  obtain ⟨h1, h2, h3, h4, h5, h6⟩ := h
  cases ch
  · exact ⟨hv, h2, h3, h4, h5, h6⟩
  · exact ⟨h1, hv, h3, h4, h5, h6⟩
  · exact ⟨h1, h2, hv, h4, h5, h6⟩
  · exact ⟨h1, h2, h3, hv, h5, h6⟩
  · exact ⟨h1, h2, h3, h4, hv, h6⟩
  · exact ⟨h1, h2, h3, h4, h5, hv⟩

theorem applyUpdates_bytesOK {c : Config} (h : c.bytesOK)
    {us : List (Channel × Int)} (hus : ∀ u ∈ us, 0 ≤ u.2 ∧ u.2 < 256) :
    (applyUpdates c us).bytesOK := by
  induction us generalizing c with
  | nil => exact h
  | cons u rest ih =>
    exact ih (setChannel_bytesOK h u.1 (hus u (by simp)))
      (fun w hw => hus w (by simp [hw]))

theorem cooldown_override_bytesOK {c : Config} (h : c.bytesOK) :
    (cooldown_override c).bytesOK :=
  ⟨(by decide : byteOK 0), h.2.1, (by decide : byteOK 10),
    (by decide : byteOK 1), (by decide : byteOK 0), (by decide : byteOK 1)⟩

/-- Claim C3: once `drop()` has set the cooldown event, every frame encoded by
a subsequent polling cycle of the same session carries the fixed override
`heater = 0` (byte 10), `drum_motor = 0` (byte 17), `solenoid = 1` (byte 16),
`cooling_motor = 1` (byte 18), `main_fan = 10` (byte 12) — whatever
configuration mutations (e.g. `heater := 50`) the facade performs after the
drop — because the loop re-applies the override after merging mutations and
immediately before each `_send_config`, and the event is never cleared. -/
theorem C3_cooldown_override_frames (st : LoopState) (cs : List CycleIn)
    (hc : st.config.bytesOK)
    (hu : ∀ inp ∈ cs, ∀ u ∈ inp.updates, 0 ≤ u.2 ∧ u.2 < 256) :
    ∀ f ∈ runLoop (ControlProcess.drop st) cs,
      ∃ bytes : List Int, f = some bytes ∧
        bytes.getD 10 0 = 0 ∧ bytes.getD 17 0 = 0 ∧ bytes.getD 16 0 = 1 ∧
        bytes.getD 18 0 = 1 ∧ bytes.getD 12 0 = 10 := by
  induction cs generalizing st with
  | nil => intro f hf; cases hf
  | cons inp rest ih =>
    intro f hf
    have hrun : runLoop (ControlProcess.drop st) (inp :: rest) =
        generate_config (cooldown_override (applyUpdates st.config inp.updates)) ::
          runLoop ⟨cooldown_override (applyUpdates st.config inp.updates), true⟩
            rest := rfl
    rw [hrun] at hf
    have hok : (cooldown_override (applyUpdates st.config inp.updates)).bytesOK :=
      cooldown_override_bytesOK
        (applyUpdates_bytesOK hc (hu inp (by simp)))
    rcases List.mem_cons.mp hf with rfl | hf'
    · exact ⟨generate_config_bytes
          (cooldown_override (applyUpdates st.config inp.updates)),
        generate_config_eq_some hok, rfl, rfl, rfl, rfl, rfl⟩
    · exact ih ⟨cooldown_override (applyUpdates st.config inp.updates), true⟩
        hok (fun w hw => hu w (by simp [hw])) f hf'

/-- Witness for C3: from the all-zero configuration, dropping and then running
one cycle in which the facade sets `heater := 50` still produces an
override-carrying frame. -/
theorem C3_cooldown_override_frames_witness :
    cfg0.bytesOK ∧
    (∀ inp ∈ [CycleIn.mk [(Channel.heater, 50)] false],
      ∀ u ∈ inp.updates, 0 ≤ u.2 ∧ u.2 < 256) ∧
    (∀ f ∈ runLoop (ControlProcess.drop ⟨cfg0, false⟩)
        [CycleIn.mk [(Channel.heater, 50)] false],
      ∃ bytes : List Int, f = some bytes ∧
        bytes.getD 10 0 = 0 ∧ bytes.getD 17 0 = 0 ∧ bytes.getD 16 0 = 1 ∧
        bytes.getD 18 0 = 1 ∧ bytes.getD 12 0 = 10) :=
  ⟨by decide, by decide,
    C3_cooldown_override_frames ⟨cfg0, false⟩
      [CycleIn.mk [(Channel.heater, 50)] false] (by decide) (by decide)⟩

theorem foldl_overwrite (l : List Config) (a : Config) :
    l.foldl (fun _ c => c) a = l.getLast?.getD a := by
  induction l generalizing a with
  | nil => rfl
  | cons c rest ih =>
    rw [List.foldl_cons, ih c]
    cases rest with
    | nil => rfl
    | cons d ds =>
      rw [List.getLast?_cons_cons]
      rcases hlast : (d :: ds).getLast? with _ | x
      · exact absurd (List.getLast?_eq_none_iff.mp hlast) (by simp)
      · rfl

/-- Claim C8 as stated is refuted: the only queue drain in `run` is the
`while not self._q.empty()` loop at lines 225-226, which executes once,
between `_wake_up()` and the polling loop; the polling loop body (lines
228-241) contains no `self._q.get()`.  Concretely: starting from the all-zero
configuration with an empty queue, a push of `heater = 7` pending during the
single polling cycle leaves that cycle's frame encoding heater 0, not the 7
the claimed per-iteration drain-and-merge would produce. -/
theorem C8_no_drain_inside_loop :
    session cfg0 [] [[cfg7]] = [some (generate_config_bytes cfg0)] ∧
    (generate_config_bytes cfg0).getD 10 0 = 0 ∧
    (generate_config_bytes cfg7).getD 10 0 = 7 ∧
    generate_config_bytes cfg0 ≠ generate_config_bytes cfg7 := by
  refine ⟨by decide, by decide, by decide, by decide⟩

/-- Claim C8 amended: all pushes pending in the Config Store are drained
exactly once, after wake-up and before the first polling iteration — each
drained push wholly replacing the working configuration, so the last push
wins — and the loop's outbound frames are thereafter independent of any
further pushes, which are never drained during the session. -/
theorem C8_amended_drain_once (init : Config) (pre : List Config)
    (arrivals : List (List Config)) :
    session init pre arrivals =
      List.replicate arrivals.length
        (generate_config (pre.getLast?.getD init)) := by
  unfold session drain_queue
  rw [foldl_overwrite]
  induction arrivals with
  | nil => rfl
  | cons a rest ih => rw [runQ, ih, List.length_cons, List.replicate_succ]

/-- Witness for C5 at the concrete configuration
heater=100, fan=10, main_fan=10, solenoid=0, drum_motor=1, cooling_motor=1. -/
theorem C5_roundtrip_witness :
    (Config.mk 100 10 10 0 1 1).Valid ∧
    (∃ (frame : List Int) (s : Settings),
      generate_config (Config.mk 100 10 10 0 1 1) = some frame ∧
      parse_settings frame = some s ∧
      s.heater = (Config.mk 100 10 10 0 1 1).heater ∧
      s.fan = (Config.mk 100 10 10 0 1 1).fan ∧
      s.main_fan = (Config.mk 100 10 10 0 1 1).main_fan ∧
      s.solenoid = (Config.mk 100 10 10 0 1 1).solenoid ∧
      s.drum_motor = (Config.mk 100 10 10 0 1 1).drum_motor ∧
      s.cooling_motor = (Config.mk 100 10 10 0 1 1).cooling_motor) :=
  ⟨by decide, C5_roundtrip (Config.mk 100 10 10 0 1 1) (by decide)⟩

end Pyhottop
